import Mathlib

/-!
Shallow embedding of the Live-Audio-Broadcast repository's core logic:
the broadcast lifecycle (controllers/broadcast.controller.js), the worker
job handlers and periodic sweep (worker.js), the template expander
(scheduler.js), and the HLS signing / relay manager (services/hls.js).

Timestamps are modelled as `Int` milliseconds since the Unix epoch
(JavaScript `Date.getTime()` values).  Entity ids (uuids) are `String`s.
External collaborators (luxon date-time library, crypto HMAC, push
providers) are modelled as explicit function parameters, so every
definition stays executable.
-/

set_option linter.unnecessarySimpa false
set_option linter.unusedVariables false

namespace LAB

/-- JavaScript truthiness of an optional string: `undefined`/`null` and the
empty string are falsy, every other string is truthy. -/
def jsTruthyStr : Option String → Bool
  | none => false
  | some s => !(s = "")

/-- Broadcast status enum from the schema:
pending, scheduled, live, completed, failed. -/
inductive BStatus
  | pending
  | scheduled
  | live
  | completed
  | failed
deriving DecidableEq, Repr

/-- A row of the broadcasts table (the columns the embedded operations
touch). -/
structure Broadcast where
  id : String
  masjidId : String
  prayerName : Option String
  status : BStatus
  scheduledAt : Option Int
  startedAt : Option Int
  endedAt : Option Int
  endedReason : Option String
  streamProvider : Option String
  streamRoomId : Option String
  audioUrl : Option String
  recordingUrl : Option String
  hlsUrl : Option String := none
  hlsEgressId : Option String := none
deriving DecidableEq, Repr

/-- Environment configuration relevant to the embedded code. `none`
models an unset or non-numeric variable (Number(...) not finite). -/
structure Env where
  broadcastMaxMinutes : Option Int := none
  livekitUrl : Option String := none
  hlsEnabled : Bool := false
  hlsPublicBaseUrl : Option String := none
  hlsSigningSecret : Option String := none
  hlsUrlTtlSeconds : Option Int := none
deriving Repr

/-- getBroadcastMaxMinutes (broadcast.controller.js lines 18-22): the
parsed env value when finite and positive, else the default 15. -/
def getBroadcastMaxMinutes (env : Env) : Int :=
  match env.broadcastMaxMinutes with
  | some m => if 0 < m then m else 15
  | none => 15

/-- isBroadcastExpired (broadcast.controller.js lines 24-29): false when
startedAt is null/undefined, otherwise elapsed ≥ maxMinutes in ms. -/
def isBroadcastExpired (env : Env) (nowMs : Int) (startedAt : Option Int) : Bool :=
  match startedAt with
  | none => false
  | some t => getBroadcastMaxMinutes env * 60 * 1000 ≤ nowMs - t

/-- First row matching an id (drizzle select ... where eq(id) limit 1). -/
def findBroadcast (bs : List Broadcast) (id : String) : Option Broadcast :=
  bs.find? (fun b => b.id = id)

/-- drizzle update ... where eq(broadcasts.id, id): apply `f` to every row
whose id matches (ids are unique in practice, being the primary key). -/
def updateBroadcast (bs : List Broadcast) (id : String) (f : Broadcast → Broadcast) :
    List Broadcast :=
  bs.map (fun b => if b.id = id then f b else b)

/-- Payload of a notification-queue job.  The enqueue sites for
broadcast-end jobs build `{ broadcastId, masjidId }` with no prayerName,
which the worker reads back as undefined, hence the `none` default. -/
structure NotifyPayload where
  broadcastId : String
  masjidId : String
  prayerName : Option String := none
deriving DecidableEq, Repr

/-- A job placed on one of the two queues by the embedded operations. -/
inductive Job
  | notify (name : String) (payload : NotifyPayload)
  | hlsStart (broadcastId roomName : String)
  | hlsStop (broadcastId : String)
  | autoEnd (broadcastId : String) (endedReason : String) (delayMs : Int)
deriving DecidableEq, Repr

/-- Structured API errors thrown by the controller handlers (mirrors the
ApiError throw sites the embedded code reaches). -/
inductive ApiErr
  | notFound
  | conflictExpired
  | conflictAlreadyLive
  | conflictAlreadyEnded
  | conflictDuplicate
  | forbidden
  | masjidNotFound
  | masjidInactive
  | validation
  | unauthorized
deriving DecidableEq, Repr

/-- Result of a controller operation: the HTTP-level outcome together
with the broadcasts table after the handler ran (JS throws an error after
any awaited writes have already committed) and the jobs it enqueued. -/
structure OpOut where
  result : Except ApiErr Unit
  state : List Broadcast
  jobs : List Job
deriving Repr

/-- markBroadcastExpired (broadcast.controller.js lines 31-49): set the
row to completed with endedReason max_duration_reached and enqueue a
broadcast-end notification (payload has no prayerName). -/
def markBroadcastExpired (nowMs : Int) (bs : List Broadcast) (id : String) :
    List Broadcast × List Job :=
  let updated := updateBroadcast bs id (fun b =>
    { b with status := .completed, endedAt := some nowMs,
             endedReason := some "max_duration_reached" })
  match findBroadcast bs id with
  | some b =>
      (updated, [Job.notify "broadcast-end" { broadcastId := b.id, masjidId := b.masjidId }])
  | none => (updated, [])

/-- Column set of the select in startBroadcast
(broadcast.controller.js lines 282-294): id, masjidId, status,
prayerName, streamProvider, streamRoomId, audioUrl.  Note that
`startedAt` is not among the selected columns. -/
structure StartSel where
  id : String
  masjidId : String
  status : BStatus
  prayerName : Option String
  streamProvider : Option String
  streamRoomId : Option String
  audioUrl : Option String
deriving DecidableEq, Repr

def startSelect (b : Broadcast) : StartSel :=
  { id := b.id, masjidId := b.masjidId, status := b.status,
    prayerName := b.prayerName, streamProvider := b.streamProvider,
    streamRoomId := b.streamRoomId, audioUrl := b.audioUrl }

/-- JS property access `broadcastRecord.startedAt` inside startBroadcast
(line 298): the select does not include the startedAt column, so the
property is undefined on the returned row; the access evaluates to
undefined, modelled as `none`. -/
def StartSel.startedAt (_ : StartSel) : Option Int := none

/-- Request body of startBroadcast (streamProvider, streamRoomId,
audioUrl are all optional). -/
structure StartBody where
  streamProvider : Option String := none
  streamRoomId : Option String := none
  audioUrl : Option String := none
deriving Repr

/-- JS `a ?? b` on optional strings. -/
def orElse? (a b : Option String) : Option String :=
  match a with
  | some v => some v
  | none => b

/-- startBroadcast (broadcast.controller.js lines 271-367).  `isAdmin`
models the requireMasjidAuthority outcome for the caller. -/
def startBroadcast (env : Env) (nowMs : Int) (isAdmin : Bool)
    (bs : List Broadcast) (id : String) (body : StartBody) : OpOut :=
  match findBroadcast bs id with
  | none => { result := .error .notFound, state := bs, jobs := [] }
  | some row =>
    let sel := startSelect row
    if sel.status = .live then
      if isBroadcastExpired env nowMs sel.startedAt then
        let healed := markBroadcastExpired nowMs bs sel.id
        { result := .error .conflictExpired, state := healed.1, jobs := healed.2 }
      else
        { result := .error .conflictAlreadyLive, state := bs, jobs := [] }
    else if sel.status = .completed then
      { result := .error .conflictAlreadyEnded, state := bs, jobs := [] }
    else if !isAdmin then
      { result := .error .forbidden, state := bs, jobs := [] }
    else
      let roomId0 := orElse? body.streamRoomId sel.streamRoomId
      let provider := orElse? body.streamProvider (orElse? sel.streamProvider (some "livekit"))
      let audio0 := orElse? body.audioUrl sel.audioUrl
      let ensureRoom :=
        !jsTruthyStr roomId0 && provider = some "livekit" && jsTruthyStr env.livekitUrl
      let roomId1 := if ensureRoom then some ("broadcast-" ++ sel.id) else roomId0
      let audio1 := if ensureRoom then orElse? audio0 env.livekitUrl else audio0
      let setField (resolved old : Option String) : Option String :=
        match resolved with
        | some v => some v
        | none => old
      let bs2 := updateBroadcast bs id (fun b =>
        { b with status := .live,
                 streamProvider := setField provider b.streamProvider,
                 streamRoomId := setField roomId1 b.streamRoomId,
                 audioUrl := setField audio1 b.audioUrl,
                 startedAt := some nowMs })
      let updated : Broadcast :=
        { row with status := .live,
                   streamProvider := setField provider row.streamProvider,
                   streamRoomId := setField roomId1 row.streamRoomId,
                   audioUrl := setField audio1 row.audioUrl,
                   startedAt := some nowMs }
      let startJob := Job.notify "broadcast-start"
        { broadcastId := updated.id, masjidId := updated.masjidId,
          prayerName := updated.prayerName }
      let hlsJobs :=
        if env.hlsEnabled && jsTruthyStr roomId1 then
          [Job.hlsStart updated.id (roomId1.getD "")]
        else []
      let delayMs := max 1 (getBroadcastMaxMinutes env) * 60 * 1000
      let autoEndJob := Job.autoEnd updated.id "max_duration_reached" delayMs
      { result := .ok (), state := bs2, jobs := [startJob] ++ hlsJobs ++ [autoEndJob] }

/-- Request body of endBroadcast. -/
structure EndBody where
  recordingUrl : Option String := none
  endedReason : Option String := none
deriving Repr

/-- endBroadcast (broadcast.controller.js lines 550-604): conflict only
when status is already completed; otherwise set completed/endedAt and
keep recordingUrl/endedReason unchanged when absent (drizzle skips
`undefined` set values); enqueue a broadcast-end notification whose
payload has no prayerName, and an hls-stop job when HLS is enabled. -/
def endBroadcast (env : Env) (nowMs : Int) (isAdmin : Bool)
    (bs : List Broadcast) (id : String) (body : EndBody) : OpOut :=
  match findBroadcast bs id with
  | none => { result := .error .notFound, state := bs, jobs := [] }
  | some row =>
    if row.status = .completed then
      { result := .error .conflictAlreadyEnded, state := bs, jobs := [] }
    else if !isAdmin then
      { result := .error .forbidden, state := bs, jobs := [] }
    else
      let bs2 := updateBroadcast bs id (fun b =>
        { b with status := .completed, endedAt := some nowMs,
                 recordingUrl := match body.recordingUrl with
                   | some v => some v
                   | none => b.recordingUrl,
                 endedReason := match body.endedReason with
                   | some v => some v
                   | none => b.endedReason })
      let endJob := Job.notify "broadcast-end"
        { broadcastId := row.id, masjidId := row.masjidId }
      let hlsJobs := if env.hlsEnabled then [Job.hlsStop row.id] else []
      { result := .ok (), state := bs2, jobs := [endJob] ++ hlsJobs }

/-- Direct service calls made by the worker handlers (not queue jobs). -/
inductive WorkerAction
  | stopRelay (broadcastId : String)
  | deleteRoom (roomName : Option String)
deriving DecidableEq, Repr

/-- Column set of the select in the worker auto-end handler
(worker.js lines 146-150): id, status, streamRoomId only. -/
structure AutoEndSel where
  id : String
  status : BStatus
  streamRoomId : Option String
deriving DecidableEq, Repr

def autoEndSelect (b : Broadcast) : AutoEndSel :=
  { id := b.id, status := b.status, streamRoomId := b.streamRoomId }

/-- JS property access `broadcastRecord.startedAt` in the auto-end
handler (worker.js line 158): startedAt is not a selected column, so the
access evaluates to undefined, modelled as `none`. -/
def AutoEndSel.startedAt (_ : AutoEndSel) : Option Int := none

/-- Max-duration resolution in the auto-end handler (worker.js lines
154-156): env value when finite and positive, else 15. -/
def autoEndMaxMinutes (env : Env) : Int :=
  match env.broadcastMaxMinutes with
  | some m => if 0 < m then m else 15
  | none => 15

/-- The broadcast-queue worker's auto-end branch (worker.js lines
143-199), for a job carrying `{ broadcastId, endedReason }`.  Returns
the broadcasts table afterwards, the jobs it enqueued, and the direct
service calls it made. -/
def autoEndHandler (env : Env) (nowMs : Int) (bs : List Broadcast)
    (broadcastId : String) (endedReason : Option String) :
    List Broadcast × List Job × List WorkerAction :=
  if broadcastId = "" then (bs, [], []) else
  match findBroadcast bs broadcastId with
  | none => (bs, [], [])
  | some row =>
    let sel := autoEndSelect row
    if !(sel.status = .live) then (bs, [], [])
    else
      let maxMinutes := autoEndMaxMinutes env
      let complete : List Broadcast × List Job × List WorkerAction :=
        let bs2 := updateBroadcast bs broadcastId (fun b =>
          { b with status := .completed, endedAt := some nowMs,
                   endedReason := some (endedReason.getD "max_duration_reached") })
        (bs2,
         [Job.notify "broadcast-end" { broadcastId := row.id, masjidId := row.masjidId }],
         [WorkerAction.stopRelay broadcastId, WorkerAction.deleteRoom sel.streamRoomId])
      match sel.startedAt with
      | some t =>
        let elapsedMs := nowMs - t
        let targetMs := maxMinutes * 60 * 1000
        if elapsedMs < targetMs - 1000 then
          let remainingMs := max 1000 (targetMs - elapsedMs)
          (bs, [Job.autoEnd broadcastId (endedReason.getD "max_duration_reached") remainingMs], [])
        else complete
      | none => complete

/-- The names worker.js imports from drizzle-orm (worker.js line 1):
only `and` and `eq`. -/
def workerDrizzleOrmImports : List String := ["and", "eq"]

/-- A JavaScript runtime error surfaced by a worker function. -/
inductive JsErr
  | referenceErrorLtNotDefined
deriving DecidableEq, Repr

/-- cleanupExpiredBroadcasts (worker.js lines 201-239).  The where clause
of its select evaluates `lt(broadcasts.startedAt, cutoff)`; `lt` is not
among the names worker.js imports from drizzle-orm, so that evaluation
throws a ReferenceError before any row is read or written. -/
def cleanupExpiredBroadcasts (env : Env) (nowMs : Int) (bs : List Broadcast) :
    Except JsErr (List Broadcast × List Job × List WorkerAction) :=
  let maxMinutes := match env.broadcastMaxMinutes with
    | some m => m
    | none => 15
  let cutoff := nowMs - max 1 maxMinutes * 60 * 1000
  if "lt" ∈ workerDrizzleOrmImports then
    let expired := bs.filter (fun b =>
      b.status = .live && (match b.startedAt with
        | some t => decide (t < cutoff)
        | none => false))
    .ok (expired.foldl (fun acc item =>
      (updateBroadcast acc.1 item.id (fun b =>
        { b with status := .completed, endedAt := some nowMs,
                 endedReason := some "max_duration_reached" }),
       acc.2.1 ++ [Job.notify "broadcast-end"
         { broadcastId := item.id, masjidId := item.masjidId }],
       acc.2.2 ++ [WorkerAction.stopRelay item.id,
                   WorkerAction.deleteRoom item.streamRoomId]))
      (bs, [], []))
  else
    .error .referenceErrorLtNotDefined

/-! ## Notification fan-out worker (worker.js lines 12-105) -/

/-- subscription.preferences JSON: mutedPrayers is `none` when absent or
not an array (the worker normalizes that to the empty list). -/
structure Prefs where
  mutedPrayers : Option (List String) := none
deriving DecidableEq, Repr

structure Subscription where
  userId : String
  masjidId : String
  preferences : Prefs := {}
  isMuted : Bool := false
  muteUntil : Option Int := none
deriving DecidableEq, Repr

structure UserDevice where
  id : String
  userId : String
  platform : String
  fcmToken : Option String := none
  voipToken : Option String := none
  isActive : Bool := true
  isWakeOnSilentEnabled : Bool := false
deriving DecidableEq, Repr

/-- The recipient query (worker.js lines 32-47): subscriptions inner
joined with userDevices on userId, filtered to the job's masjid and to
active devices. -/
def notifJoin (subs : List Subscription) (devices : List UserDevice)
    (masjidId : String) : List (Subscription × UserDevice) :=
  (subs.filter (fun s => s.masjidId = masjidId)).flatMap (fun s =>
    (devices.filter (fun d => d.userId = s.userId && d.isActive)).map (fun d => (s, d)))

/-- Result of a push-provider send. -/
structure SendResult where
  status : String
  provider : Option String := none
  error : Option String := none
deriving DecidableEq, Repr

/-- The data payload handed to the push provider (worker.js lines 68-77). -/
structure PushPayload where
  action : String
  broadcastId : String
  masjidId : String
  prayerName : String
  roomName : String
  livekitUrl : String
  token : String
  streamUrl : String
deriving DecidableEq, Repr

/-- One push attempt made during a fan-out run. -/
structure AttemptedPush where
  userId : String
  deviceId : String
  platform : String
  viaVoip : Bool
  payload : PushPayload
deriving DecidableEq, Repr

/-- A notificationLogs row as built by the worker (lines 89-97). -/
structure NotifLog where
  userId : String
  deviceId : String
  masjidId : String
  broadcastId : String
  status : String
  provider : Option String
  error : Option String
deriving DecidableEq, Repr

/-- getHlsPublicUrl (hls.js lines 19-22). -/
def getHlsPublicUrl (env : Env) (broadcastId : String) : Option String :=
  match env.hlsPublicBaseUrl with
  | none => none
  | some base =>
    if base = "" then none
    else some (base ++ "/broadcasts/" ++ broadcastId ++ "/index.m3u8")

/-- The per-recipient skip conditions of the fan-out loop (worker.js
lines 53-58): continue when isMuted, when muteUntil is in the future,
and when the job's prayerName is truthy and contained in the
subscription's mutedPrayers (note: no event-type condition here; the
filter distinguishes start from end only because end payloads carry no
prayerName). -/
def passesMuteFilters (nowMs : Int) (prayerName : Option String)
    (s : Subscription) : Bool :=
  !s.isMuted &&
  !(match s.muteUntil with
    | some t => decide (nowMs < t)
    | none => false) &&
  !(jsTruthyStr prayerName &&
    decide (prayerName.getD "" ∈ s.preferences.mutedPrayers.getD []))

/-- The push attempted for one surviving recipient (worker.js lines
60-85): payload construction, token minting for start events without an
HLS url, and the iOS-voip / data-message channel selection. -/
def recipientPush (env : Env) (mkToken : String → String → Option String)
    (eventType : String) (payload : NotifyPayload) (br : Broadcast)
    (rec : Subscription × UserDevice) : AttemptedPush :=
  let roomName := br.streamRoomId
  let livekitUrl := orElse? br.audioUrl env.livekitUrl
  let hlsUrl := orElse? br.hlsUrl
    (if env.hlsEnabled then getHlsPublicUrl env payload.broadcastId else none)
  let token :=
    if eventType = "start" && jsTruthyStr roomName && !jsTruthyStr hlsUrl
    then mkToken rec.1.userId (roomName.getD "")
    else none
  { userId := rec.1.userId, deviceId := rec.2.id, platform := rec.2.platform,
    viaVoip := rec.2.platform = "ios",
    payload :=
      { action := if eventType = "start" then "GO_LIVE" else "END",
        broadcastId := payload.broadcastId,
        masjidId := payload.masjidId,
        prayerName := payload.prayerName.getD "",
        roomName := roomName.getD "",
        livekitUrl := livekitUrl.getD "",
        token := token.getD "",
        streamUrl := hlsUrl.getD "" } }

/-- The notificationLogs row pushed for one surviving recipient
(worker.js lines 79-97). -/
def recipientLog (sendVoip sendFcm : Option String → SendResult)
    (payload : NotifyPayload) (rec : Subscription × UserDevice) : NotifLog :=
  let result :=
    if rec.2.platform = "ios" then sendVoip rec.2.voipToken else sendFcm rec.2.fcmToken
  { userId := rec.1.userId, deviceId := rec.2.id, masjidId := payload.masjidId,
    broadcastId := payload.broadcastId, status := result.status,
    provider := result.provider, error := result.error }

/-- The notifications worker handler (worker.js lines 12-105).
`mkToken` models createLivekitToken (identity, roomName); `sendVoip` and
`sendFcm` model the push providers on a device token.  The loop with its
continue statements appends one push attempt and one log row per
recipient that passes the skip conditions, in order — i.e. a filter
followed by a map; the log rows are inserted by the single batch insert
at the end. -/
def notificationHandler (env : Env) (nowMs : Int)
    (mkToken : String → String → Option String)
    (sendVoip sendFcm : Option String → SendResult)
    (bs : List Broadcast) (subs : List Subscription) (devices : List UserDevice)
    (jobName : String) (payload : NotifyPayload) :
    List AttemptedPush × List NotifLog :=
  if payload.broadcastId = "" || payload.masjidId = "" then ([], [])
  else
    let eventType := if jobName = "broadcast-end" then "end" else "start"
    match findBroadcast bs payload.broadcastId with
    | none => ([], [])
    | some br =>
      let surviving := (notifJoin subs devices payload.masjidId).filter
        (fun rec => passesMuteFilters nowMs payload.prayerName rec.1)
      (surviving.map (recipientPush env mkToken eventType payload br),
       surviving.map (recipientLog sendVoip sendFcm payload))

/-! ## HLS signing and relay manager (services/hls.js) -/

/-- TTL resolution in signHlsUrl (hls.js line 26):
Number(env.HLS_URL_TTL_SECONDS) || 900, so unset/NaN/0 all fall back
to 900. -/
def hlsTtlSeconds (env : Env) : Int :=
  match env.hlsUrlTtlSeconds with
  | some n => if n = 0 then 900 else n
  | none => 900

structure SignedUrl where
  exp : Int
  sig : String
  url : String
deriving DecidableEq, Repr

/-- signHlsUrl (hls.js lines 24-35).  `hmac secret payload` models the
hex HMAC-SHA256 digest. -/
def signHlsUrl (hmac : String → String → String) (env : Env) (nowMs : Int)
    (broadcastId : String) (basePath : String) : Option SignedUrl :=
  match env.hlsSigningSecret with
  | none => none
  | some secret =>
    if secret = "" then none
    else
      let exp := nowMs / 1000 + hlsTtlSeconds env
      let payload := broadcastId ++ "." ++ toString exp
      let sig := hmac secret payload
      let p := if basePath.endsWith "/" then basePath.dropRight 1 else basePath
      some { exp := exp, sig := sig,
             url := p ++ "/broadcasts/" ++ broadcastId ++ "/hls/index.m3u8?exp="
               ++ toString exp ++ "&sig=" ++ sig }

/-- verifyHlsSignature (hls.js lines 37-51).  `exp = none` models a
missing, empty or non-numeric exp query value (Number(exp) not finite);
`sig = none` a missing sig.  On equal lengths, timingSafeEqual is string
equality. -/
def verifyHlsSignature (hmac : String → String → String) (env : Env) (nowMs : Int)
    (broadcastId : String) (exp : Option Int) (sig : Option String) : Bool :=
  match env.hlsSigningSecret, exp, sig with
  | some secret, some e, some sg =>
    if secret = "" || sg = "" then false
    else if e < nowMs / 1000 then false
    else
      let payload := broadcastId ++ "." ++ toString e
      let expected := hmac secret payload
      if !(expected.length = sg.length) then false
      else expected = sg
  | _, _, _ => false

/-- How a getHlsAsset request was authorized. -/
inductive AuthOutcome
  | viaSignature
  | viaToken (userId : String)
deriving DecidableEq, Repr

/-- The authorization phase of getHlsAsset (broadcast.controller.js
lines 606-645): signature verification first, and only when it fails
the bearer/cookie token + subscription fallback.  `verifyTok` models
verifyAccessToken combined with the payload id/sub extraction. -/
def getHlsAssetAuthorize (hmac : String → String → String) (env : Env) (nowMs : Int)
    (subs : List Subscription) (bs : List Broadcast)
    (verifyTok : String → Option String) (id : String)
    (exp : Option Int) (sig : Option String)
    (bearer cookieToken : Option String) : Except ApiErr AuthOutcome :=
  if verifyHlsSignature hmac env nowMs id exp sig then .ok .viaSignature
  else
    match (if jsTruthyStr bearer then bearer else cookieToken) with
    | none => .error .unauthorized
    | some tk =>
      if tk = "" then .error .unauthorized
      else
        match verifyTok tk with
        | none => .error .unauthorized
        | some actorId =>
          if actorId = "" then .error .unauthorized
          else
            match findBroadcast bs id with
            | none => .error .notFound
            | some br =>
              if subs.any (fun s => s.userId = actorId && s.masjidId = br.masjidId)
              then .ok (.viaToken actorId)
              else .error .forbidden

/-- An entry of the in-memory activeRelays map (hls.js line 9). -/
structure RelayHandle where
  broadcastId : String
  roomName : String
  egressId : Option String := none
  processPid : Option Nat := none
deriving DecidableEq, Repr

/-- Side effects performed by stopHlsRelay. -/
inductive RelayAction
  | killProcess (pid : Nat)
  | stopEgress (egressId : String)
deriving DecidableEq, Repr

abbrev RelayMap := List (String × RelayHandle)

def relayLookup (m : RelayMap) (id : String) : Option RelayHandle :=
  (m.find? (fun e => e.1 = id)).map (fun e => e.2)

def relayRemove (m : RelayMap) (id : String) : RelayMap :=
  m.filter (fun e => !(e.1 = id))

/-- stopHlsRelay (hls.js lines 183-205): returns null (modelled `none`)
with no side effects when the map has no entry; otherwise kills the
transcoder process if it has a pid, stops the egress if one was
recorded, and removes the entry. -/
def stopHlsRelay (m : RelayMap) (id : String) :
    Option Bool × List RelayAction × RelayMap :=
  match relayLookup m id with
  | none => (none, [], m)
  | some relay =>
    let killActs := match relay.processPid with
      | some pid => [RelayAction.killProcess pid]
      | none => []
    let egressActs := match relay.egressId with
      | some e => [RelayAction.stopEgress e]
      | none => []
    (some true, killActs ++ egressActs, relayRemove m id)

/-! ## Template expander (scheduler.js lines 94-162) -/

/-- A scheduleTemplates row joined with the masjid's timezone. -/
structure ScheduleTemplate where
  masjidId : String
  prayerName : String
  adhanTimeLocal : String
  iqamahTimeLocal : Option String := none
  khutbahTimeLocal : Option String := none
  isJuma : Option Bool := none
  timezone : Option String := none
deriving DecidableEq, Repr

/-- A schedules row. -/
structure ScheduleRow where
  masjidId : String
  date : String
  prayerName : String
  time : String
  adhanAtUtc : Int
  iqamahAtUtc : Option Int := none
  khutbahAtUtc : Option Int := none
  isJuma : Bool := false
deriving DecidableEq, Repr

/-- The luxon collaborator, fixed for the duration of one local day:
`localDate zone offset` is the ISO date of today-in-zone plus `offset`
days; `fromISOValid s zone` models DateTime.fromISO(s, zone).isValid
and `toUtcMs s zone` the corresponding UTC instant. -/
structure TzOracle where
  localDate : String → Nat → String
  fromISOValid : String → String → Bool
  toUtcMs : String → String → Int

/-- scheduler.js line 113: template.timezone || the Asia/Kolkata
default (JS || treats the empty string as falsy). -/
def resolveTimezone (t : ScheduleTemplate) : String :=
  match t.timezone with
  | some z => if z = "" then "Asia/Kolkata" else z
  | none => "Asia/Kolkata"

/-- The existence check of the expander (scheduler.js lines 120-128):
a schedules row with the same (masjidId, date, prayerName). -/
def hasOccurrence (rows : List ScheduleRow) (masjidId date prayerName : String) : Bool :=
  rows.any (fun r => r.masjidId = masjidId && r.date = date && r.prayerName = prayerName)

/-- scheduler.js line 117-118: the ISO date of the masjid-local day at
the given offset (0 = today, 1 = tomorrow). -/
def expDate (tz : TzOracle) (t : ScheduleTemplate) (offset : Nat) : String :=
  tz.localDate (resolveTimezone t) offset

/-- scheduler.js lines 132-133: whether dateString + adhanTimeLocal
parses as a valid DateTime in the masjid's zone. -/
def adhanOk (tz : TzOracle) (t : ScheduleTemplate) (offset : Nat) : Bool :=
  tz.fromISOValid (expDate tz t offset ++ "T" ++ t.adhanTimeLocal)
    (resolveTimezone t)

/-- One iteration of the expander's inner loop (scheduler.js lines
117-156) for a template and a day offset: skip when the occurrence
already exists or the adhan local time does not parse in the zone,
otherwise insert the occurrence. -/
def ensureOne (tz : TzOracle) (t : ScheduleTemplate) (offset : Nat)
    (rows : List ScheduleRow) : List ScheduleRow :=
  let zone := resolveTimezone t
  let dateString := expDate tz t offset
  if hasOccurrence rows t.masjidId dateString t.prayerName then rows
  else
    let adhanIso := dateString ++ "T" ++ t.adhanTimeLocal
    if !adhanOk tz t offset then rows
    else
      rows ++ [{ masjidId := t.masjidId, date := dateString,
                 prayerName := t.prayerName, time := t.adhanTimeLocal,
                 adhanAtUtc := tz.toUtcMs adhanIso zone,
                 iqamahAtUtc := match t.iqamahTimeLocal with
                   | some v => if v = "" then none
                               else some (tz.toUtcMs (dateString ++ "T" ++ v) zone)
                   | none => none,
                 khutbahAtUtc := match t.khutbahTimeLocal with
                   | some v => if v = "" then none
                               else some (tz.toUtcMs (dateString ++ "T" ++ v) zone)
                   | none => none,
                 isJuma := t.isJuma.getD (t.prayerName = "Juma") }]

/-- The expander's per-template loop body: offsets 0 then 1. -/
def ensureTemplate (tz : TzOracle) (t : ScheduleTemplate)
    (rows : List ScheduleRow) : List ScheduleRow :=
  ensureOne tz t 1 (ensureOne tz t 0 rows)

/-- ensureDailySchedulesFromTemplates (scheduler.js lines 94-162) as a
transformation of the schedules table. -/
def ensureDailySchedulesFromTemplates (tz : TzOracle)
    (templates : List ScheduleTemplate) (rows : List ScheduleRow) :
    List ScheduleRow :=
  templates.foldl (fun acc t => ensureTemplate tz t acc) rows

/-! ## createBroadcast (broadcast.controller.js lines 132-268) -/

structure Masjid where
  id : String
  isApproved : Bool := true
  isActive : Bool := true
deriving DecidableEq, Repr

structure CreateBody where
  masjidId : String
  title : Option String := none
  prayerName : Option String := none
  scheduledAt : Option String := none
  streamProvider : Option String := none
  streamRoomId : Option String := none
  audioUrl : Option String := none
deriving Repr

def msPerDay : Int := 86400000

/-- UTC calendar-day start for an epoch-ms instant: Date.UTC of its UTC
year/month/day components, i.e. truncation to a day boundary (exact for
non-negative timestamps). -/
def utcDayStart (t : Int) : Int := t / msPerDay * msPerDay

/-- The duplicate query of createBroadcast (broadcast.controller.js
lines 181-195): same masjid and prayer, status not failed, and
scheduledAt or startedAt inside the UTC day range (SQL comparisons on a
NULL column are not satisfied). -/
def sameDayDuplicateExists (bs : List Broadcast) (masjidId prayerName : String)
    (dayStart dayEnd : Int) : Bool :=
  bs.any (fun b =>
    b.masjidId = masjidId && b.prayerName = some prayerName &&
    !(b.status = .failed) &&
    ((match b.scheduledAt with
      | some s => decide (dayStart ≤ s) && decide (s < dayEnd)
      | none => false) ||
     (match b.startedAt with
      | some s => decide (dayStart ≤ s) && decide (s < dayEnd)
      | none => false)))

/-- Outcome of createBroadcast: a structured ApiError response, a
runtime error thrown by the insert itself, or the created row. -/
inductive CreateResult
  | apiError (e : ApiErr)
  | insertError
  | created (b : Broadcast)
deriving DecidableEq, Repr

structure CreateOut where
  result : CreateResult
  state : List Broadcast
deriving DecidableEq, Repr

/-- createBroadcast (broadcast.controller.js lines 132-268).  `parse`
models `new Date(s).getTime()` with `none` for an Invalid Date (NaN);
`newId` the id the insert generates.  The same-day duplicate check runs
only when both prayerName and scheduledAt are truthy — the
Number.isNaN validation at line 164 sits inside that gate.  The insert
passes `scheduledAt ? new Date(scheduledAt) : null` (line 212) with no
further validation, so a truthy unparsable scheduledAt reaches the
insert as an Invalid Date and the insert throws while serializing it
(Date#toISOString raises a RangeError) before any row is written;
otherwise the insert succeeds, followed by the LiveKit room
provisioning update when applicable. -/
def createBroadcast (env : Env) (parse : String → Option Int)
    (masjidRows : List Masjid) (isAdmin : Bool) (bs : List Broadcast)
    (newId : String) (body : CreateBody) : CreateOut :=
  match masjidRows.find? (fun m => m.id = body.masjidId) with
  | none => { result := .apiError .masjidNotFound, state := bs }
  | some m =>
    if !m.isApproved || !m.isActive then
      { result := .apiError .masjidInactive, state := bs }
    else if !isAdmin then
      { result := .apiError .forbidden, state := bs }
    else
      let dupCheck : Except ApiErr Unit :=
        if jsTruthyStr body.prayerName && jsTruthyStr body.scheduledAt then
          match parse (body.scheduledAt.getD "") with
          | none => .error .validation
          | some ms =>
            let dayStart := utcDayStart ms
            if sameDayDuplicateExists bs body.masjidId (body.prayerName.getD "")
                dayStart (dayStart + msPerDay)
            then .error .conflictDuplicate
            else .ok ()
        else .ok ()
      match dupCheck with
      | .error e => { result := .apiError e, state := bs }
      | .ok _ =>
        let resolvedProvider := body.streamProvider.getD "livekit"
        let insertRow : Option Int → BStatus → CreateOut := fun schedAt st =>
          let created : Broadcast :=
            { id := newId, masjidId := body.masjidId,
              prayerName := body.prayerName,
              status := st,
              scheduledAt := schedAt,
              startedAt := none, endedAt := none, endedReason := none,
              streamProvider := some resolvedProvider,
              streamRoomId := body.streamRoomId,
              audioUrl := body.audioUrl,
              recordingUrl := none }
          let provisionRoom :=
            resolvedProvider = "livekit" && !jsTruthyStr created.streamRoomId &&
              jsTruthyStr env.livekitUrl
          let final :=
            if provisionRoom then
              { created with streamRoomId := some ("broadcast-" ++ newId),
                             audioUrl := orElse? created.audioUrl env.livekitUrl }
            else created
          { result := .created final, state := bs ++ [final] }
        if jsTruthyStr body.scheduledAt then
          match parse (body.scheduledAt.getD "") with
          | none => { result := .insertError, state := bs }
          | some ms => insertRow (some ms) .scheduled
        else insertRow none .pending

/-! ## Theorems -/

theorem relayLookup_remove (m : RelayMap) (id : String) :
    relayLookup (relayRemove m id) id = none := by
  induction m with
  | nil => rfl
  | cons e t ih =>
    by_cases h : e.1 = id
    · simpa [relayRemove, relayLookup, List.filter_cons, h] using ih
    · simpa [relayRemove, relayLookup, List.filter_cons, List.find?, h] using ih

/-- C9: stopHlsRelay is idempotent — with no entry for the id it returns
null with no side effects and the map unchanged; after any call the map
has no entry for the id, so a repeated call is a no-op. -/
theorem stopHlsRelay_idempotent (m : RelayMap) (id : String) :
    (relayLookup m id = none → stopHlsRelay m id = (none, [], m)) ∧
    relayLookup (stopHlsRelay m id).2.2 id = none ∧
    stopHlsRelay (stopHlsRelay m id).2.2 id = (none, [], (stopHlsRelay m id).2.2) := by
  refine ⟨fun h => by simp [stopHlsRelay, h], ?_, ?_⟩
  · cases hl : relayLookup m id with
    | none => simpa [stopHlsRelay, hl] using hl
    | some r => simpa [stopHlsRelay, hl] using relayLookup_remove m id
  · cases hl : relayLookup m id with
    | none => simp [stopHlsRelay, hl]
    | some r =>
      have h2 : relayLookup (stopHlsRelay m id).2.2 id = none := by
        simpa [stopHlsRelay, hl] using relayLookup_remove m id
      simp [stopHlsRelay, hl] at h2 ⊢
      simp [h2]

def relayMapW : RelayMap :=
  [("b1", { broadcastId := "b1", roomName := "room-1",
            egressId := some "eg-1", processPid := some 42 })]

/-- Witness for stopHlsRelay_idempotent at a concrete one-entry map. -/
theorem stopHlsRelay_idempotent_witness :
    stopHlsRelay relayMapW "b2" = (none, [], relayMapW) ∧
    relayLookup (stopHlsRelay relayMapW "b1").2.2 "b1" = none :=
  ⟨(stopHlsRelay_idempotent relayMapW "b2").1 (by decide),
   (stopHlsRelay_idempotent relayMapW "b1").2.1⟩

/-- C3: every run of the periodic sweep throws a ReferenceError —
the where clause evaluates lt(broadcasts.startedAt, cutoff) but worker.js
imports only and, eq from drizzle-orm — so no expired live broadcast is
ever force-completed by it. -/
theorem cleanupExpiredBroadcasts_always_throws (env : Env) (nowMs : Int)
    (bs : List Broadcast) :
    cleanupExpiredBroadcasts env nowMs bs = .error .referenceErrorLtNotDefined := by
  simp [cleanupExpiredBroadcasts, workerDrizzleOrmImports]

theorem findBroadcast_update (bs : List Broadcast) (id : String)
    (f : Broadcast → Broadcast) (hf : ∀ x, (f x).id = x.id) :
    findBroadcast (updateBroadcast bs id f) id = (findBroadcast bs id).map f := by
  induction bs with
  | nil => rfl
  | cons b t ih =>
    simp only [updateBroadcast, List.map_cons, findBroadcast, List.find?] at ih ⊢
    by_cases h : b.id = id
    · simp [h, hf]
    · simp only [if_neg h, decide_eq_false h, Bool.false_eq_true, if_false]
      exact ih

/-- C2 (the code at the claim's premise): when the auto-end job fires
on a live broadcast with persisted startedAt and elapsed time strictly
below the max-duration target minus one second, the handler still
transitions the broadcast to completed immediately and enqueues no
rescheduled job — the premature-firing branch is unreachable because the
handler's select omits the startedAt column. -/
theorem autoEnd_premature_firing_completes_anyway
    (env : Env) (nowMs : Int) (bs : List Broadcast) (id : String)
    (reason : Option String) (b : Broadcast)
    (hfind : findBroadcast bs id = some b) (hlive : b.status = .live)
    (t : Int) (hstart : b.startedAt = some t)
    (hearly : nowMs - t < autoEndMaxMinutes env * 60 * 1000 - 1000)
    (hid : ¬id = "") :
    autoEndHandler env nowMs bs id reason =
      (updateBroadcast bs id (fun x =>
        { x with status := .completed, endedAt := some nowMs,
                 endedReason := some (reason.getD "max_duration_reached") }),
       [Job.notify "broadcast-end" { broadcastId := b.id, masjidId := b.masjidId }],
       [WorkerAction.stopRelay id, WorkerAction.deleteRoom b.streamRoomId]) := by
  simp [autoEndHandler, hid, hfind, autoEndSelect, AutoEndSel.startedAt, hlive]

def autoB : Broadcast :=
  { id := "b1", masjidId := "m1", prayerName := none, status := .live,
    scheduledAt := none, startedAt := some 1000, endedAt := none, endedReason := none,
    streamProvider := none, streamRoomId := none, audioUrl := none,
    recordingUrl := none }

/-- Witness: auto-end fired 0 ms after start (max duration 15 min)
still completes the broadcast. -/
theorem autoEnd_premature_firing_witness :
    autoEndHandler {} 1000 [autoB] "b1" none =
      (updateBroadcast [autoB] "b1" (fun x =>
        { x with status := .completed, endedAt := some 1000,
                 endedReason := some "max_duration_reached" }),
       [Job.notify "broadcast-end" { broadcastId := "b1", masjidId := "m1" }],
       [WorkerAction.stopRelay "b1", WorkerAction.deleteRoom none]) :=
  autoEnd_premature_firing_completes_anyway {} 1000 [autoB] "b1" none autoB rfl rfl
    1000 rfl (by decide) (by decide)

/-- C4 (the code at the claim's premise): startBroadcast on a live
broadcast whose persisted startedAt is past the max-duration ceiling
reports Conflict (already live) without transitioning the stale record
to completed and without enqueuing an end notification — the
self-healing branch is unreachable because the handler's select omits
the startedAt column, so isBroadcastExpired always sees undefined. -/
theorem startBroadcast_expired_live_not_selfhealed
    (env : Env) (nowMs : Int) (isAdmin : Bool) (bs : List Broadcast)
    (id : String) (body : StartBody) (b : Broadcast)
    (hfind : findBroadcast bs id = some b) (hlive : b.status = .live)
    (t : Int) (hstart : b.startedAt = some t)
    (hexp : getBroadcastMaxMinutes env * 60 * 1000 ≤ nowMs - t) :
    startBroadcast env nowMs isAdmin bs id body =
      { result := .error .conflictAlreadyLive, state := bs, jobs := [] } := by
  simp [startBroadcast, hfind, startSelect, StartSel.startedAt, isBroadcastExpired, hlive]

def staleLiveB : Broadcast :=
  { id := "b1", masjidId := "m1", prayerName := some "Fajr", status := .live,
    scheduledAt := none, startedAt := some 0, endedAt := none, endedReason := none,
    streamProvider := none, streamRoomId := none, audioUrl := none,
    recordingUrl := none }

/-- Witness: a broadcast live for 20 minutes (max 15) still yields the
plain already-live Conflict and an unchanged table. -/
theorem startBroadcast_expired_live_witness :
    startBroadcast {} 1200000 true [staleLiveB] "b1" {} =
      { result := .error .conflictAlreadyLive, state := [staleLiveB], jobs := [] } :=
  startBroadcast_expired_live_not_selfhealed {} 1200000 true [staleLiveB] "b1" {}
    staleLiveB rfl rfl 0 rfl (by decide)

def failedB : Broadcast :=
  { id := "b1", masjidId := "m1", prayerName := some "Fajr", status := .failed,
    scheduledAt := none, startedAt := none, endedAt := none,
    endedReason := some "provider_error", streamProvider := none,
    streamRoomId := none, audioUrl := none, recordingUrl := none }

/-- C1 counterexample: on a broadcast whose status is failed,
startBroadcast does not fail with Conflict — it succeeds and sets the
record live — and endBroadcast also succeeds, setting it completed. -/
theorem terminal_invariant_counterexample :
    (startBroadcast {} 5000 true [failedB] "b1" {}).result = .ok () ∧
    ¬ (startBroadcast {} 5000 true [failedB] "b1" {}).state = [failedB] ∧
    (endBroadcast {} 5000 true [failedB] "b1" {}).result = .ok () ∧
    findBroadcast (endBroadcast {} 5000 true [failedB] "b1" {}).state "b1" =
      some { failedB with status := .completed, endedAt := some 5000 } :=
  ⟨rfl, by decide, rfl, by decide⟩

/-- C1 (amended): completed is terminal — startBroadcast and
endBroadcast on a completed broadcast fail with Conflict leaving the
table unchanged, the auto-end handler is a no-op on any non-live
broadcast, and the sweep throws before touching any row — but failed is
not terminal: startBroadcast on a failed broadcast succeeds and
transitions it to live, and endBroadcast on it succeeds and transitions
it to completed. -/
theorem completed_terminal_failed_not
    (env : Env) (nowMs : Int) (bs : List Broadcast) (id : String)
    (sbody : StartBody) (ebody : EndBody) (reason : Option String)
    (b : Broadcast) (hfind : findBroadcast bs id = some b) :
    (b.status = .completed →
      startBroadcast env nowMs true bs id sbody =
        { result := .error .conflictAlreadyEnded, state := bs, jobs := [] } ∧
      endBroadcast env nowMs true bs id ebody =
        { result := .error .conflictAlreadyEnded, state := bs, jobs := [] }) ∧
    (¬ b.status = .live → autoEndHandler env nowMs bs id reason = (bs, [], [])) ∧
    cleanupExpiredBroadcasts env nowMs bs = .error .referenceErrorLtNotDefined ∧
    (b.status = .failed →
      (startBroadcast env nowMs true bs id sbody).result = .ok () ∧
      (∃ b2, findBroadcast (startBroadcast env nowMs true bs id sbody).state id = some b2 ∧
        b2.status = .live) ∧
      (endBroadcast env nowMs true bs id ebody).result = .ok () ∧
      (∃ b3, findBroadcast (endBroadcast env nowMs true bs id ebody).state id = some b3 ∧
        b3.status = .completed)) := by
  refine ⟨fun hc => ?_, fun hnl => ?_, ?_, fun hfl => ?_⟩
  · constructor
    · simp [startBroadcast, hfind, startSelect, hc]
    · simp [endBroadcast, hfind, hc]
  · by_cases hid : id = ""
    · simp [autoEndHandler, hid]
    · simp [autoEndHandler, hid, hfind, autoEndSelect, hnl]
  · simp [cleanupExpiredBroadcasts, workerDrizzleOrmImports]
  · have hs1 : ¬ b.status = BStatus.live := by simp [hfl]
    have hs2 : ¬ b.status = BStatus.completed := by simp [hfl]
    refine ⟨?_, ?_, ?_, ?_⟩
    · simp [startBroadcast, hfind, startSelect, hs1, hs2]
    · simp only [startBroadcast, hfind, startSelect]
      rw [if_neg (by simpa using hs1), if_neg (by simpa using hs2)]
      simp only [Bool.not_true, Bool.false_eq_true, if_false]
      rw [findBroadcast_update bs id]
      · rw [hfind]; exact ⟨_, rfl, rfl⟩
      · exact fun x => rfl
    · simp [endBroadcast, hfind, hs2]
    · simp only [endBroadcast, hfind]
      rw [if_neg (by simpa using hs2)]
      simp only [Bool.not_true, Bool.false_eq_true, if_false]
      rw [findBroadcast_update bs id]
      · rw [hfind]; exact ⟨_, rfl, rfl⟩
      · exact fun x => rfl

def completedB : Broadcast :=
  { id := "b2", masjidId := "m1", prayerName := none, status := .completed,
    scheduledAt := none, startedAt := some 0, endedAt := some 1,
    endedReason := none, streamProvider := none, streamRoomId := none,
    audioUrl := none, recordingUrl := none }

/-- Witness: a completed broadcast rejects start with Conflict and stays
unchanged, while a failed broadcast accepts start. -/
theorem completed_terminal_failed_not_witness :
    startBroadcast {} 1000 true [completedB] "b2" {} =
      { result := .error .conflictAlreadyEnded, state := [completedB], jobs := [] } ∧
    (startBroadcast {} 1000 true [failedB] "b1" {}).result = .ok () :=
  ⟨((completed_terminal_failed_not {} 1000 [completedB] "b2" {} {} none
      completedB rfl).1 rfl).1,
   ((completed_terminal_failed_not {} 1000 [failedB] "b1" {} {} none
      failedB rfl).2.2.2 rfl).1⟩

/-- C8: verifyHlsSignature returns true exactly when a non-empty signing
secret is configured, a finite exp not less than the current unix time
was supplied, and sig is the hex HMAC-SHA256 of broadcastId.exp under
the secret; a URL produced by signHlsUrl for the same broadcastId
verifies until its expiry; and the getHlsAsset authorization falls back
to the bearer/cookie token plus subscription path exactly when this
verification fails.  `hLen` states that the hmac collaborator returns
64-hex-character digests. -/
theorem hls_signature_scheme_correct (hmac : String → String → String)
    (hLen : ∀ s p, (hmac s p).length = 64) (env : Env) (nowMs : Int)
    (id : String) :
    (∀ exp sig, verifyHlsSignature hmac env nowMs id exp sig = true ↔
      ∃ secret e sg, env.hlsSigningSecret = some secret ∧ ¬secret = "" ∧
        exp = some e ∧ sig = some sg ∧ nowMs / 1000 ≤ e ∧
        sg = hmac secret (id ++ "." ++ toString e)) ∧
    (∀ basePath su, signHlsUrl hmac env nowMs id basePath = some su →
      ∀ now2 : Int, now2 / 1000 ≤ su.exp →
        verifyHlsSignature hmac env now2 id (some su.exp) (some su.sig) = true) ∧
    (∀ subs bs verifyTok exp sig bearer cookie,
      (getHlsAssetAuthorize hmac env nowMs subs bs verifyTok id exp sig bearer cookie =
          .ok .viaSignature ↔
        verifyHlsSignature hmac env nowMs id exp sig = true) ∧
      (verifyHlsSignature hmac env nowMs id exp sig = false → bearer = none →
        cookie = none →
        getHlsAssetAuthorize hmac env nowMs subs bs verifyTok id exp sig bearer cookie =
          .error .unauthorized)) := by
  have hmacNe : ∀ s p, ¬ hmac s p = "" := by
    intro s p h0
    have := hLen s p
    rw [h0] at this
    simp at this
  refine ⟨?_, ?_, ?_⟩
  · intro exp sig
    constructor
    · intro h
      cases hsec : env.hlsSigningSecret with
      | none => simp [verifyHlsSignature, hsec] at h
      | some secret =>
        cases exp with
        | none => simp [verifyHlsSignature, hsec] at h
        | some e =>
          cases sig with
          | none => simp [verifyHlsSignature, hsec] at h
          | some sg =>
            simp only [verifyHlsSignature, hsec] at h
            by_cases h1 : secret = ""
            · simp [h1] at h
            · by_cases h2 : sg = ""
              · simp [h1, h2] at h
              · by_cases h3 : e < nowMs / 1000
                · simp [h1, h2, h3] at h
                · simp only [h1, h2, h3, decide_False, Bool.or_self,
                    Bool.false_eq_true, if_false, decide_eq_true_eq,
                    if_neg, Bool.not_eq_true] at h
                  refine ⟨secret, e, sg, rfl, h1, rfl, rfl, by omega, ?_⟩
                  by_cases h4 : (hmac secret (id ++ "." ++ toString e)).length = sg.length
                  · simp only [h4, decide_True, Bool.not_true, Bool.false_eq_true,
                      if_false, decide_eq_true_eq] at h
                    exact h.symm
                  · simp [h4] at h
    · rintro ⟨secret, e, sg, hsec, h1, rfl, rfl, hle, rfl⟩
      simp only [verifyHlsSignature, hsec]
      rw [if_neg (by simp [h1, hmacNe]), if_neg (by omega)]
      simp
  · intro basePath su hsign now2 hle
    cases hsec : env.hlsSigningSecret with
    | none => simp [signHlsUrl, hsec] at hsign
    | some secret =>
      by_cases h1 : secret = ""
      · simp [signHlsUrl, hsec, h1] at hsign
      · simp only [signHlsUrl, hsec, h1, if_false, decide_False, Bool.false_eq_true,
          Option.some.injEq] at hsign
        subst hsign
        dsimp only at hle ⊢
        simp only [verifyHlsSignature, hsec]
        rw [if_neg (by simp [h1, hmacNe]), if_neg (by omega)]
        simp
  · intro subs bs verifyTok exp sig bearer cookie
    constructor
    · constructor
      · intro h
        by_cases hv : verifyHlsSignature hmac env nowMs id exp sig = true
        · exact hv
        · exfalso
          simp only [getHlsAssetAuthorize, hv, Bool.false_eq_true, if_false] at h
          split at h
          · exact Except.noConfusion h
          · split at h
            · exact Except.noConfusion h
            · split at h
              · exact Except.noConfusion h
              · split at h
                · exact Except.noConfusion h
                · split at h
                  · exact Except.noConfusion h
                  · split at h
                    · simp at h
                    · exact Except.noConfusion h
      · intro hv
        simp [getHlsAssetAuthorize, hv]
    · intro hv hb hc
      subst hb
      subst hc
      simp [getHlsAssetAuthorize, hv, jsTruthyStr]

def hmacW : String → String → String := fun _ _ => String.mk (List.replicate 64 'h')

theorem hmacW_len (s p : String) : (hmacW s p).length = 64 := rfl

def envW : Env := { hlsSigningSecret := some "sec" }

/-- Witness for the C8 theorem: a concrete digest of b1.900 verifies at
unix time 900 under the configured secret. -/
theorem hls_signature_scheme_witness :
    verifyHlsSignature hmacW envW 900000 "b1" (some 900)
      (some (hmacW "sec" ("b1" ++ "." ++ toString (900 : Int)))) = true :=
  ((hls_signature_scheme_correct hmacW hmacW_len envW 900000 "b1").1
      (some 900) (some (hmacW "sec" ("b1" ++ "." ++ toString (900 : Int))))).mpr
    ⟨"sec", 900, hmacW "sec" ("b1" ++ "." ++ toString (900 : Int)), rfl,
      by decide, rfl, rfl, by decide, rfl⟩

/-- C10 (amended): createBroadcast runs its same-day duplicate check
only when both prayerName and scheduledAt are truthy.  With scheduledAt
absent a pending row is always inserted, and with prayerName absent and
a parseable scheduledAt a scheduled row is always inserted — in both
cases even when a same-day non-failed broadcast for the pair already
exists.  But with prayerName absent and a truthy unparsable
scheduledAt, the insert itself throws on the Invalid Date and no row is
inserted.  With both present and such a duplicate found, the request
fails with 409 Conflict and nothing is inserted. -/
theorem createBroadcast_duplicate_check_gating
    (env : Env) (parse : String → Option Int) (masjidRows : List Masjid)
    (bs : List Broadcast) (newId : String) (body : CreateBody) (m : Masjid)
    (hm : masjidRows.find? (fun x => x.id = body.masjidId) = some m)
    (hap : m.isApproved = true) (hact : m.isActive = true) :
    (jsTruthyStr body.scheduledAt = false →
      ∃ created,
        (createBroadcast env parse masjidRows true bs newId body).result =
          .created created ∧
        (createBroadcast env parse masjidRows true bs newId body).state =
          bs ++ [created] ∧
        created.status = BStatus.pending ∧
        created.prayerName = body.prayerName ∧ created.masjidId = body.masjidId) ∧
    (jsTruthyStr body.prayerName = false →
      ∀ str ms, body.scheduledAt = some str → ¬str = "" → parse str = some ms →
      ∃ created,
        (createBroadcast env parse masjidRows true bs newId body).result =
          .created created ∧
        (createBroadcast env parse masjidRows true bs newId body).state =
          bs ++ [created] ∧
        created.status = BStatus.scheduled ∧ created.scheduledAt = some ms ∧
        created.prayerName = body.prayerName ∧ created.masjidId = body.masjidId) ∧
    (jsTruthyStr body.prayerName = false →
      ∀ str, body.scheduledAt = some str → ¬str = "" → parse str = none →
      createBroadcast env parse masjidRows true bs newId body =
        { result := .insertError, state := bs }) ∧
    (∀ p str ms, body.prayerName = some p → body.scheduledAt = some str →
      ¬p = "" → ¬str = "" → parse str = some ms →
      sameDayDuplicateExists bs body.masjidId p (utcDayStart ms)
        (utcDayStart ms + msPerDay) = true →
      createBroadcast env parse masjidRows true bs newId body =
        { result := .apiError .conflictDuplicate, state := bs }) := by
  refine ⟨?_, ?_, ?_, ?_⟩
  · intro h
    simp only [createBroadcast, hm, hap, hact, h, Bool.and_false, Bool.not_true,
      Bool.or_self, Bool.false_eq_true, if_false]
    refine ⟨_, rfl, rfl, ?_, ?_, ?_⟩ <;> split <;> rfl
  · intro h str ms hs hsne hparse
    have h2 : jsTruthyStr (some str) = true := by simp [jsTruthyStr, hsne]
    simp only [createBroadcast, hm, hap, hact, h, hs, h2, Bool.false_and,
      Bool.not_true, Bool.or_self, Bool.false_eq_true, if_false, if_true,
      Option.getD_some, hparse]
    refine ⟨_, rfl, rfl, ?_, ?_, ?_, ?_⟩ <;> split <;> rfl
  · intro h str hs hsne hparse
    have h2 : jsTruthyStr (some str) = true := by simp [jsTruthyStr, hsne]
    simp only [createBroadcast, hm, hap, hact, h, hs, h2, Bool.false_and,
      Bool.not_true, Bool.or_self, Bool.false_eq_true, if_false, if_true,
      Option.getD_some, hparse]
  · intro p str ms hp hs hpne hsne hparse hdup
    simp only [createBroadcast, hm, hap, hact, hp, hs]
    have h1 : jsTruthyStr (some p) = true := by simp [jsTruthyStr, hpne]
    have h2 : jsTruthyStr (some str) = true := by simp [jsTruthyStr, hsne]
    simp only [h1, h2, Bool.and_self, if_true, Option.getD_some, hparse, hdup,
      Bool.not_true, Bool.false_eq_true, if_false]
    simp

def masjidW : Masjid := { id := "m1" }

def dupB : Broadcast :=
  { id := "b0", masjidId := "m1", prayerName := some "Fajr", status := .scheduled,
    scheduledAt := some 500, startedAt := none, endedAt := none, endedReason := none,
    streamProvider := none, streamRoomId := none, audioUrl := none,
    recordingUrl := none }

def bodyW : CreateBody := { masjidId := "m1", prayerName := some "Fajr" }

/-- Models `new Date(s).getTime()` for a request whose scheduledAt is
not a parseable date string (Invalid Date, NaN). -/
def noParse : String → Option Int := fun _ => none

/-- C10 counterexample: with prayerName absent and scheduledAt the
unparsable (but truthy) string "not-a-date", createBroadcast inserts no
row — the insert throws on the Invalid Date — refuting that a request
with prayerName absent always gets a new broadcast row inserted. -/
theorem createBroadcast_insert_counterexample :
    createBroadcast {} noParse [masjidW] true [dupB] "b9"
        { masjidId := "m1", scheduledAt := some "not-a-date" } =
      { result := .insertError, state := [dupB] } := by decide

/-- Witness: with scheduledAt absent, createBroadcast inserts a pending
row even though a same-day non-failed broadcast for (m1, Fajr) exists. -/
theorem createBroadcast_gating_witness :
    ∃ created,
      (createBroadcast {} (fun _ => none) [masjidW] true [dupB] "b9" bodyW).result =
        .created created ∧
      (createBroadcast {} (fun _ => none) [masjidW] true [dupB] "b9" bodyW).state =
        [dupB] ++ [created] ∧
      created.status = BStatus.pending ∧
      created.prayerName = bodyW.prayerName ∧ created.masjidId = bodyW.masjidId :=
  (createBroadcast_duplicate_check_gating {} (fun _ => none) [masjidW] [dupB] "b9"
    bodyW masjidW rfl rfl rfl).1 rfl

theorem mem_notifJoin (subs : List Subscription) (devices : List UserDevice)
    (masjidId : String) (rec : Subscription × UserDevice) :
    rec ∈ notifJoin subs devices masjidId ↔
      rec.1 ∈ subs ∧ rec.1.masjidId = masjidId ∧ rec.2 ∈ devices ∧
      rec.2.userId = rec.1.userId ∧ rec.2.isActive = true := by
  obtain ⟨s, d⟩ := rec
  simp only [notifJoin, List.mem_flatMap, List.mem_map, List.mem_filter,
    Prod.mk.injEq]
  constructor
  · rintro ⟨s2, ⟨hs2, hmas⟩, d2, ⟨hd2, hcond⟩, rfl, rfl⟩
    simp only [Bool.and_eq_true, decide_eq_true_eq] at hmas hcond
    exact ⟨hs2, hmas, hd2, hcond.1, hcond.2⟩
  · rintro ⟨hs, hmas, hd, huser, hact⟩
    exact ⟨s, ⟨hs, by simp [hmas]⟩, d, ⟨hd, by simp [huser, hact]⟩, rfl, rfl⟩

theorem notificationHandler_eq (env : Env) (nowMs : Int)
    (mkToken : String → String → Option String)
    (sendVoip sendFcm : Option String → SendResult)
    (bs : List Broadcast) (subs : List Subscription) (devices : List UserDevice)
    (jobName : String) (payload : NotifyPayload) (br : Broadcast)
    (h1 : ¬ payload.broadcastId = "") (h2 : ¬ payload.masjidId = "")
    (hbr : findBroadcast bs payload.broadcastId = some br) :
    notificationHandler env nowMs mkToken sendVoip sendFcm bs subs devices
        jobName payload =
      (((notifJoin subs devices payload.masjidId).filter
          (fun rec => passesMuteFilters nowMs payload.prayerName rec.1)).map
         (recipientPush env mkToken
           (if jobName = "broadcast-end" then "end" else "start") payload br),
       ((notifJoin subs devices payload.masjidId).filter
          (fun rec => passesMuteFilters nowMs payload.prayerName rec.1)).map
         (recipientLog sendVoip sendFcm payload)) := by
  simp [notificationHandler, h1, h2, hbr]

theorem notificationHandler_cases (env : Env) (nowMs : Int)
    (mkToken : String → String → Option String)
    (sendVoip sendFcm : Option String → SendResult)
    (bs : List Broadcast) (subs : List Subscription) (devices : List UserDevice)
    (jobName : String) (payload : NotifyPayload) :
    notificationHandler env nowMs mkToken sendVoip sendFcm bs subs devices
        jobName payload = ([], []) ∨
    ∃ br, findBroadcast bs payload.broadcastId = some br ∧
      notificationHandler env nowMs mkToken sendVoip sendFcm bs subs devices
          jobName payload =
        (((notifJoin subs devices payload.masjidId).filter
            (fun rec => passesMuteFilters nowMs payload.prayerName rec.1)).map
           (recipientPush env mkToken
             (if jobName = "broadcast-end" then "end" else "start") payload br),
         ((notifJoin subs devices payload.masjidId).filter
            (fun rec => passesMuteFilters nowMs payload.prayerName rec.1)).map
           (recipientLog sendVoip sendFcm payload)) := by
  by_cases hg : (payload.broadcastId = "" || payload.masjidId = "") = true
  · left
    simp [notificationHandler, hg]
  · cases hbr : findBroadcast bs payload.broadcastId with
    | none =>
      left
      simp [notificationHandler, hg, hbr]
    | some br =>
      right
      refine ⟨br, rfl, ?_⟩
      simp only [Bool.or_eq_true, decide_eq_true_eq, not_or] at hg
      exact notificationHandler_eq env nowMs mkToken sendVoip sendFcm bs subs
        devices jobName payload br hg.1 hg.2 hbr

/-- C6: in every fan-out run, a (subscription, device) pair whose
subscription has isMuted set, or whose muteUntil lies in the future at
fan-out time, gets no push attempt and no NotificationLog row (the
subscriptions unique index on (userId, masjidId) is the `huniq`
hypothesis). -/
theorem fanout_muted_subscription_excluded
    (env : Env) (nowMs : Int) (mkToken : String → String → Option String)
    (sendVoip sendFcm : Option String → SendResult)
    (bs : List Broadcast) (subs : List Subscription) (devices : List UserDevice)
    (jobName : String) (payload : NotifyPayload) (s : Subscription)
    (hs : s ∈ subs)
    (huniq : ∀ s2 ∈ subs, s2.userId = s.userId → s2.masjidId = s.masjidId → s2 = s)
    (hsm : s.masjidId = payload.masjidId)
    (hmuted : s.isMuted = true ∨ ∃ t, s.muteUntil = some t ∧ nowMs < t) :
    (∀ ap ∈ (notificationHandler env nowMs mkToken sendVoip sendFcm bs subs
        devices jobName payload).1, ¬ ap.userId = s.userId) ∧
    (∀ lg ∈ (notificationHandler env nowMs mkToken sendVoip sendFcm bs subs
        devices jobName payload).2, ¬ lg.userId = s.userId) := by
  have key : ∀ rec ∈ (notifJoin subs devices payload.masjidId).filter
      (fun rec => passesMuteFilters nowMs payload.prayerName rec.1),
      ¬ (rec : Subscription × UserDevice).1.userId = s.userId := by
    intro rec hrec heq
    obtain ⟨hjoin, hpass⟩ := List.mem_filter.mp hrec
    obtain ⟨hsub, hmas, -, -, -⟩ := (mem_notifJoin subs devices payload.masjidId rec).mp hjoin
    have hrs : rec.1 = s := huniq rec.1 hsub heq (by rw [hmas, hsm])
    rw [hrs] at hpass
    rcases hmuted with hm | ⟨t, ht, hlt⟩
    · simp [passesMuteFilters, hm] at hpass
    · simp [passesMuteFilters, ht, hlt] at hpass
  rcases notificationHandler_cases env nowMs mkToken sendVoip sendFcm bs subs
      devices jobName payload with hcase | ⟨br, hbr, hcase⟩ <;>
    rw [hcase] <;> constructor <;> intro x hx
  · simp at hx
  · simp at hx
  · obtain ⟨rec, hrec, rfl⟩ := List.mem_map.mp hx
    exact fun h => key rec hrec (by simpa [recipientPush] using h)
  · obtain ⟨rec, hrec, rfl⟩ := List.mem_map.mp hx
    exact fun h => key rec hrec (by simpa [recipientLog] using h)

def mutedSubW : Subscription :=
  { userId := "u1", masjidId := "m1", isMuted := true }

def deviceW : UserDevice :=
  { id := "d1", userId := "u1", platform := "android", fcmToken := some "tok" }

def liveBrW : Broadcast :=
  { id := "b1", masjidId := "m1", prayerName := some "Fajr", status := .live,
    scheduledAt := none, startedAt := some 0, endedAt := none, endedReason := none,
    streamProvider := none, streamRoomId := none, audioUrl := none,
    recordingUrl := none }

def sendW : Option String → SendResult := fun _ => { status := "sent" }

/-- Witness: a muted subscriber of m1 receives neither a push attempt
nor a log row from a start fan-out for m1. -/
theorem fanout_muted_subscription_excluded_witness :
    (∀ ap ∈ (notificationHandler {} 1000 (fun _ _ => none) sendW sendW [liveBrW]
        [mutedSubW] [deviceW] "broadcast-start"
        { broadcastId := "b1", masjidId := "m1", prayerName := some "Fajr" }).1,
      ¬ ap.userId = "u1") ∧
    (∀ lg ∈ (notificationHandler {} 1000 (fun _ _ => none) sendW sendW [liveBrW]
        [mutedSubW] [deviceW] "broadcast-start"
        { broadcastId := "b1", masjidId := "m1", prayerName := some "Fajr" }).2,
      ¬ lg.userId = "u1") :=
  fanout_muted_subscription_excluded {} 1000 (fun _ _ => none) sendW sendW
    [liveBrW] [mutedSubW] [deviceW] "broadcast-start"
    { broadcastId := "b1", masjidId := "m1", prayerName := some "Fajr" }
    mutedSubW (by decide)
    (by intro s2 h2 _ _; simpa using h2) rfl (Or.inl rfl)

/-- C5: a subscriber whose preferences.mutedPrayers contains the
broadcast's prayerName never gets a push attempt or log row from a
start fan-out for that broadcast; every system enqueue of a
broadcast-end job (endBroadcast, the auto-end handler,
markBroadcastExpired) carries no prayerName in its payload; hence the
same subscriber — when not otherwise muted and owning an active
device — does receive end-event notifications for that masjid: the
mutedPrayers filter suppresses only start deliveries. -/
theorem mutedPrayers_suppresses_start_only
    (env : Env) (nowMs : Int) (mkToken : String → String → Option String)
    (sendVoip sendFcm : Option String → SendResult)
    (bs : List Broadcast) (subs : List Subscription) (devices : List UserDevice)
    (payload : NotifyPayload) (s : Subscription) (hs : s ∈ subs)
    (huniq : ∀ s2 ∈ subs, s2.userId = s.userId → s2.masjidId = s.masjidId → s2 = s)
    (hsm : s.masjidId = payload.masjidId)
    (p : String) (hp : payload.prayerName = some p) (hpne : ¬p = "")
    (hmp : p ∈ s.preferences.mutedPrayers.getD []) :
    ((∀ ap ∈ (notificationHandler env nowMs mkToken sendVoip sendFcm bs subs
        devices "broadcast-start" payload).1, ¬ ap.userId = s.userId) ∧
     (∀ lg ∈ (notificationHandler env nowMs mkToken sendVoip sendFcm bs subs
        devices "broadcast-start" payload).2, ¬ lg.userId = s.userId)) ∧
    (∀ (env2 : Env) (nowMs2 : Int) (bs2 : List Broadcast) (id : String)
        (ebody : EndBody) (reason : Option String) (nm : String)
        (pl : NotifyPayload),
      (Job.notify nm pl ∈ (endBroadcast env2 nowMs2 true bs2 id ebody).jobs →
        pl.prayerName = none) ∧
      (Job.notify nm pl ∈ (autoEndHandler env2 nowMs2 bs2 id reason).2.1 →
        pl.prayerName = none) ∧
      (Job.notify nm pl ∈ (markBroadcastExpired nowMs2 bs2 id).2 →
        pl.prayerName = none)) ∧
    (s.isMuted = false → (∀ t, s.muteUntil = some t → t ≤ nowMs) →
      ∀ d ∈ devices, d.userId = s.userId → d.isActive = true →
      ∀ payloadE : NotifyPayload, payloadE.prayerName = none →
        payloadE.masjidId = payload.masjidId →
        ¬ payloadE.broadcastId = "" → ¬ payloadE.masjidId = "" →
        ∀ (bsE : List Broadcast) (br : Broadcast),
          findBroadcast bsE payloadE.broadcastId = some br →
          ∃ ap ∈ (notificationHandler env nowMs mkToken sendVoip sendFcm bsE subs
              devices "broadcast-end" payloadE).1,
            ap.userId = s.userId ∧ ap.deviceId = d.id ∧
            ap.payload.action = "END" ∧
            ∃ lg ∈ (notificationHandler env nowMs mkToken sendVoip sendFcm bsE
                subs devices "broadcast-end" payloadE).2,
              lg.userId = s.userId ∧ lg.deviceId = d.id) := by
  refine ⟨?_, ?_, ?_⟩
  · have key : ∀ rec ∈ (notifJoin subs devices payload.masjidId).filter
        (fun rec => passesMuteFilters nowMs payload.prayerName rec.1),
        ¬ (rec : Subscription × UserDevice).1.userId = s.userId := by
      intro rec hrec heq
      obtain ⟨hjoin, hpass⟩ := List.mem_filter.mp hrec
      obtain ⟨hsub, hmas, -, -, -⟩ :=
        (mem_notifJoin subs devices payload.masjidId rec).mp hjoin
      have hrs : rec.1 = s := huniq rec.1 hsub heq (by rw [hmas, hsm])
      rw [hrs] at hpass
      simp [passesMuteFilters, hp, jsTruthyStr, hpne, hmp] at hpass
    rcases notificationHandler_cases env nowMs mkToken sendVoip sendFcm bs subs
        devices "broadcast-start" payload with hcase | ⟨br, hbr, hcase⟩ <;>
      rw [hcase] <;> constructor <;> intro x hx
    · simp at hx
    · simp at hx
    · obtain ⟨rec, hrec, rfl⟩ := List.mem_map.mp hx
      exact fun h => key rec hrec (by simpa [recipientPush] using h)
    · obtain ⟨rec, hrec, rfl⟩ := List.mem_map.mp hx
      exact fun h => key rec hrec (by simpa [recipientLog] using h)
  · intro env2 nowMs2 bs2 id ebody reason nm pl
    refine ⟨?_, ?_, ?_⟩
    · intro hmem
      simp only [endBroadcast] at hmem
      split at hmem
      · simp at hmem
      · split at hmem
        · simp at hmem
        · simp only [Bool.not_true, Bool.false_eq_true, if_false, List.mem_append,
            List.mem_cons, List.not_mem_nil, or_false, Job.notify.injEq] at hmem
          rcases hmem with ⟨-, rfl⟩ | h
          · rfl
          · split at h <;> simp at h
    · intro hmem
      simp only [autoEndHandler, AutoEndSel.startedAt] at hmem
      split at hmem
      · simp at hmem
      · split at hmem
        · simp at hmem
        · split at hmem
          · simp at hmem
          · simp only [List.mem_cons, List.not_mem_nil, or_false,
              Job.notify.injEq] at hmem
            rcases hmem with ⟨-, rfl⟩
            rfl
    · intro hmem
      simp only [markBroadcastExpired] at hmem
      split at hmem
      · simp only [List.mem_cons, List.not_mem_nil, or_false,
          Job.notify.injEq] at hmem
        rcases hmem with ⟨-, rfl⟩
        rfl
      · simp at hmem
  · intro hnm hfuture d hd hdu hda payloadE hpe hme hne1 hne2 bsE br hbr
    rw [notificationHandler_eq env nowMs mkToken sendVoip sendFcm bsE subs
      devices "broadcast-end" payloadE br hne1 hne2 hbr]
    have hjoin : (s, d) ∈ notifJoin subs devices payloadE.masjidId :=
      (mem_notifJoin subs devices payloadE.masjidId (s, d)).mpr
        ⟨hs, by rw [hsm, hme], hd, hdu, hda⟩
    have hpassE : passesMuteFilters nowMs payloadE.prayerName s = true := by
      simp only [passesMuteFilters, hnm, hpe, jsTruthyStr, Bool.not_false,
        Bool.false_and, Bool.and_true, Bool.true_and]
      cases hmu : s.muteUntil with
      | none => simp
      | some t =>
        have ht := hfuture t hmu
        simp [show ¬ nowMs < t by omega]
    have hfil : (s, d) ∈ (notifJoin subs devices payloadE.masjidId).filter
        (fun rec => passesMuteFilters nowMs payloadE.prayerName rec.1) :=
      List.mem_filter.mpr ⟨hjoin, hpassE⟩
    exact ⟨_, List.mem_map_of_mem _ hfil, rfl, rfl, by simp [recipientPush],
      _, List.mem_map_of_mem _ hfil, rfl, rfl⟩

def prayerMutedSubW : Subscription :=
  { userId := "u1", masjidId := "m1",
    preferences := { mutedPrayers := some ["Fajr"] } }

/-- Witness: with Fajr muted, the start fan-out for a Fajr broadcast
delivers nothing to u1, while an end fan-out for the same masjid
reaches u1's active device. -/
theorem mutedPrayers_suppresses_start_only_witness :
    (∀ ap ∈ (notificationHandler {} 1000 (fun _ _ => none) sendW sendW [liveBrW]
        [prayerMutedSubW] [deviceW] "broadcast-start"
        { broadcastId := "b1", masjidId := "m1", prayerName := some "Fajr" }).1,
      ¬ ap.userId = "u1") ∧
    (∃ ap ∈ (notificationHandler {} 1000 (fun _ _ => none) sendW sendW [liveBrW]
        [prayerMutedSubW] [deviceW] "broadcast-end"
        { broadcastId := "b1", masjidId := "m1" }).1,
      ap.userId = "u1" ∧ ap.deviceId = "d1" ∧ ap.payload.action = "END") := by
  have h := mutedPrayers_suppresses_start_only {} 1000 (fun _ _ => none) sendW
    sendW [liveBrW] [prayerMutedSubW] [deviceW]
    { broadcastId := "b1", masjidId := "m1", prayerName := some "Fajr" }
    prayerMutedSubW (by decide) (by intro s2 h2 _ _; simpa using h2) rfl
    "Fajr" rfl (by decide) (by decide)
  refine ⟨h.1.1, ?_⟩
  obtain ⟨ap, hmem, h1, h2, h3, -⟩ :=
    h.2.2 rfl (fun t ht => Option.noConfusion ht) deviceW (by decide) rfl rfl
      { broadcastId := "b1", masjidId := "m1" } rfl rfl (by decide) (by decide)
      [liveBrW] liveBrW rfl
  exact ⟨ap, hmem, h1, h2, h3⟩

/-! Helper development for the template expander. -/

/-- Number of schedules rows with the given (masjidId, date, prayerName)
key. -/
def occCount (rows : List ScheduleRow) (m dt p : String) : Nat :=
  (rows.filter (fun r => r.masjidId = m && r.date = dt && r.prayerName = p)).length

/-- The expander's inner loop has nothing left to do for (template,
offset): the occurrence exists, or its adhan time does not parse. -/
def keyDone (tz : TzOracle) (t : ScheduleTemplate) (o : Nat)
    (rows : List ScheduleRow) : Prop :=
  hasOccurrence rows t.masjidId (expDate tz t o) t.prayerName = true ∨
  adhanOk tz t o = false

theorem ensureOne_char (tz : TzOracle) (t : ScheduleTemplate) (o : Nat)
    (rows : List ScheduleRow) :
    (keyDone tz t o rows ∧ ensureOne tz t o rows = rows) ∨
    (hasOccurrence rows t.masjidId (expDate tz t o) t.prayerName = false ∧
     adhanOk tz t o = true ∧
     ∃ row, ensureOne tz t o rows = rows ++ [row] ∧
       row.masjidId = t.masjidId ∧ row.date = expDate tz t o ∧
       row.prayerName = t.prayerName) := by
  cases h1 : hasOccurrence rows t.masjidId (expDate tz t o) t.prayerName with
  | true =>
    left
    exact ⟨Or.inl h1, by simp [ensureOne, h1]⟩
  | false =>
    cases h2 : adhanOk tz t o with
    | false =>
      left
      exact ⟨Or.inr h2, by simp [ensureOne, h1, h2]⟩
    | true =>
      right
      refine ⟨rfl, rfl, ?_⟩
      simp only [ensureOne, h1, h2, Bool.not_true, Bool.false_eq_true, if_false]
      exact ⟨_, rfl, rfl, rfl, rfl⟩

theorem ensureOne_append (tz : TzOracle) (t : ScheduleTemplate) (o : Nat)
    (rows : List ScheduleRow) : ∃ l, ensureOne tz t o rows = rows ++ l := by
  rcases ensureOne_char tz t o rows with ⟨-, h⟩ | ⟨-, -, row, h, -⟩
  · exact ⟨[], by simp [h]⟩
  · exact ⟨[row], h⟩

theorem hasOccurrence_append (rows l : List ScheduleRow) (m dt p : String) :
    hasOccurrence (rows ++ l) m dt p =
      (hasOccurrence rows m dt p || hasOccurrence l m dt p) := by
  simp [hasOccurrence, List.any_append]

theorem keyDone_mono (tz : TzOracle) (t : ScheduleTemplate) (o : Nat)
    (rows l : List ScheduleRow) (h : keyDone tz t o rows) :
    keyDone tz t o (rows ++ l) := by
  rcases h with h | h
  · left
    rw [hasOccurrence_append, h]
    rfl
  · right
    exact h

theorem ensureOne_keyDone_self (tz : TzOracle) (t : ScheduleTemplate) (o : Nat)
    (rows : List ScheduleRow) : keyDone tz t o (ensureOne tz t o rows) := by
  rcases ensureOne_char tz t o rows with ⟨hd, heq⟩ | ⟨h1, h2, row, heq, hm, hdt, hp⟩
  · rw [heq]
    exact hd
  · left
    rw [heq, hasOccurrence_append]
    have hrow : hasOccurrence [row] t.masjidId (expDate tz t o) t.prayerName = true := by
      simp [hasOccurrence, hm, hdt, hp]
    simp [hrow]

theorem ensureOne_pres_keyDone (tz : TzOracle) (t t2 : ScheduleTemplate)
    (o o2 : Nat) (rows : List ScheduleRow) (h : keyDone tz t2 o2 rows) :
    keyDone tz t2 o2 (ensureOne tz t o rows) := by
  obtain ⟨l, hl⟩ := ensureOne_append tz t o rows
  rw [hl]
  exact keyDone_mono tz t2 o2 rows l h

theorem ensureOne_of_done (tz : TzOracle) (t : ScheduleTemplate) (o : Nat)
    (rows : List ScheduleRow) (h : keyDone tz t o rows) :
    ensureOne tz t o rows = rows := by
  rcases ensureOne_char tz t o rows with ⟨-, heq⟩ | ⟨h1, h2, row, heq, -⟩
  · exact heq
  · rcases h with h | h
    · rw [h1] at h
      exact absurd h (by simp)
    · rw [h2] at h
      exact absurd h (by simp)

theorem ensureTemplate_append (tz : TzOracle) (t : ScheduleTemplate)
    (rows : List ScheduleRow) : ∃ l, ensureTemplate tz t rows = rows ++ l := by
  obtain ⟨l1, h1⟩ := ensureOne_append tz t 0 rows
  obtain ⟨l2, h2⟩ := ensureOne_append tz t 1 (ensureOne tz t 0 rows)
  exact ⟨l1 ++ l2, by rw [ensureTemplate, h2, h1, List.append_assoc]⟩

theorem ensureTemplate_pres_keyDone (tz : TzOracle) (t t2 : ScheduleTemplate)
    (o2 : Nat) (rows : List ScheduleRow) (h : keyDone tz t2 o2 rows) :
    keyDone tz t2 o2 (ensureTemplate tz t rows) := by
  obtain ⟨l, hl⟩ := ensureTemplate_append tz t rows
  rw [hl]
  exact keyDone_mono tz t2 o2 rows l h

theorem ensureTemplate_keyDone_self (tz : TzOracle) (t : ScheduleTemplate)
    (rows : List ScheduleRow) :
    keyDone tz t 0 (ensureTemplate tz t rows) ∧
    keyDone tz t 1 (ensureTemplate tz t rows) :=
  ⟨ensureOne_pres_keyDone tz t t 1 0 (ensureOne tz t 0 rows)
      (ensureOne_keyDone_self tz t 0 rows),
   ensureOne_keyDone_self tz t 1 (ensureOne tz t 0 rows)⟩

theorem ensureTemplate_of_done (tz : TzOracle) (t : ScheduleTemplate)
    (rows : List ScheduleRow) (h0 : keyDone tz t 0 rows)
    (h1 : keyDone tz t 1 rows) : ensureTemplate tz t rows = rows := by
  rw [ensureTemplate, ensureOne_of_done tz t 0 rows h0,
    ensureOne_of_done tz t 1 rows h1]

theorem ensureAll_append (tz : TzOracle) (ts : List ScheduleTemplate) :
    ∀ rows, ∃ l, ensureDailySchedulesFromTemplates tz ts rows = rows ++ l := by
  induction ts with
  | nil => exact fun rows => ⟨[], by simp [ensureDailySchedulesFromTemplates]⟩
  | cons t ts ih =>
    intro rows
    obtain ⟨l1, h1⟩ := ensureTemplate_append tz t rows
    obtain ⟨l2, h2⟩ := ih (ensureTemplate tz t rows)
    refine ⟨l1 ++ l2, ?_⟩
    simp only [ensureDailySchedulesFromTemplates, List.foldl_cons] at h2 ⊢
    rw [h2, h1, List.append_assoc]

theorem ensureAll_pres_keyDone (tz : TzOracle) (ts : List ScheduleTemplate)
    (t2 : ScheduleTemplate) (o2 : Nat) (rows : List ScheduleRow)
    (h : keyDone tz t2 o2 rows) :
    keyDone tz t2 o2 (ensureDailySchedulesFromTemplates tz ts rows) := by
  obtain ⟨l, hl⟩ := ensureAll_append tz ts rows
  rw [hl]
  exact keyDone_mono tz t2 o2 rows l h

theorem ensureAll_keyDone_self (tz : TzOracle) (ts : List ScheduleTemplate) :
    ∀ rows, ∀ t ∈ ts,
      keyDone tz t 0 (ensureDailySchedulesFromTemplates tz ts rows) ∧
      keyDone tz t 1 (ensureDailySchedulesFromTemplates tz ts rows) := by
  induction ts with
  | nil => intro rows t ht; cases ht
  | cons t ts ih =>
    intro rows t2 ht2
    simp only [ensureDailySchedulesFromTemplates, List.foldl_cons]
    rcases List.mem_cons.mp ht2 with rfl | h
    · exact ⟨ensureAll_pres_keyDone tz ts t2 0 _
          (ensureTemplate_keyDone_self tz t2 rows).1,
        ensureAll_pres_keyDone tz ts t2 1 _
          (ensureTemplate_keyDone_self tz t2 rows).2⟩
    · exact ih (ensureTemplate tz t rows) t2 h

theorem ensureAll_of_done (tz : TzOracle) (ts : List ScheduleTemplate) :
    ∀ rows, (∀ t ∈ ts, keyDone tz t 0 rows ∧ keyDone tz t 1 rows) →
      ensureDailySchedulesFromTemplates tz ts rows = rows := by
  induction ts with
  | nil => intro rows h; rfl
  | cons t ts ih =>
    intro rows h
    simp only [ensureDailySchedulesFromTemplates, List.foldl_cons]
    rw [ensureTemplate_of_done tz t rows (h t (by simp)).1 (h t (by simp)).2]
    exact ih rows (fun t2 h2 => h t2 (List.mem_cons_of_mem t h2))

theorem hasOccurrence_iff_pos (rows : List ScheduleRow) (m dt p : String) :
    hasOccurrence rows m dt p = true ↔ 0 < occCount rows m dt p := by
  rw [hasOccurrence, occCount, List.any_eq_true]
  rw [← List.countP_eq_length_filter, List.countP_pos_iff]

theorem occCount_append (rows l : List ScheduleRow) (m dt p : String) :
    occCount (rows ++ l) m dt p = occCount rows m dt p + occCount l m dt p := by
  simp [occCount, List.filter_append]

theorem occCount_single (row : ScheduleRow) (m dt p : String) :
    occCount [row] m dt p =
      if row.masjidId = m ∧ row.date = dt ∧ row.prayerName = p then 1 else 0 := by
  by_cases h : row.masjidId = m ∧ row.date = dt ∧ row.prayerName = p
  · simp [occCount, List.filter, h.1, h.2.1, h.2.2]
  · simp only [occCount, List.filter, if_neg h]
    rcases not_and_or.mp h with h1 | h23
    · simp [h1]
    · rcases not_and_or.mp h23 with h2 | h3
      · simp [h2]
      · simp [h3]

theorem ensureOne_atMost (tz : TzOracle) (t : ScheduleTemplate) (o : Nat)
    (rows : List ScheduleRow)
    (hinv : ∀ m dt p, occCount rows m dt p ≤ 1) :
    ∀ m dt p, occCount (ensureOne tz t o rows) m dt p ≤ 1 := by
  rcases ensureOne_char tz t o rows with ⟨-, heq⟩ | ⟨h1, h2, row, heq, hm, hdt, hp⟩
  · rw [heq]
    exact hinv
  · intro m dt p
    rw [heq, occCount_append, occCount_single]
    by_cases hk : row.masjidId = m ∧ row.date = dt ∧ row.prayerName = p
    · have h0 : occCount rows m dt p = 0 := by
        by_contra hc
        have hpos := Nat.pos_of_ne_zero hc
        have hocc := (hasOccurrence_iff_pos rows m dt p).mpr hpos
        rw [← hk.1, ← hk.2.1, ← hk.2.2, hm, hdt, hp, h1] at hocc
        exact Bool.noConfusion hocc
      rw [h0, if_pos hk]
    · rw [if_neg hk]
      have := hinv m dt p
      omega

theorem ensureTemplate_atMost (tz : TzOracle) (t : ScheduleTemplate)
    (rows : List ScheduleRow)
    (hinv : ∀ m dt p, occCount rows m dt p ≤ 1) :
    ∀ m dt p, occCount (ensureTemplate tz t rows) m dt p ≤ 1 :=
  ensureOne_atMost tz t 1 (ensureOne tz t 0 rows)
    (ensureOne_atMost tz t 0 rows hinv)

theorem ensureAll_atMost (tz : TzOracle) (ts : List ScheduleTemplate) :
    ∀ rows, (∀ m dt p, occCount rows m dt p ≤ 1) →
      ∀ m dt p, occCount (ensureDailySchedulesFromTemplates tz ts rows) m dt p ≤ 1 := by
  induction ts with
  | nil => intro rows hinv; exact hinv
  | cons t ts ih =>
    intro rows hinv
    simp only [ensureDailySchedulesFromTemplates, List.foldl_cons]
    exact ih (ensureTemplate tz t rows) (ensureTemplate_atMost tz t rows hinv)

/-- C7: with the schedules unique index as invariant (`hinv`), the
template expander is idempotent within one local day (same TzOracle):
a second run is the identity; the at-most-one-per-key invariant is
preserved; and for every template and each of the two target dates
whose adhan local time parses, exactly one ScheduleOccurrence row with
that (masjidId, date, prayerName) exists after a run. -/
theorem templateExpander_idempotent (tz : TzOracle)
    (templates : List ScheduleTemplate) (rows : List ScheduleRow)
    (hinv : ∀ m dt p, occCount rows m dt p ≤ 1) :
    ensureDailySchedulesFromTemplates tz templates
        (ensureDailySchedulesFromTemplates tz templates rows) =
      ensureDailySchedulesFromTemplates tz templates rows ∧
    (∀ m dt p,
      occCount (ensureDailySchedulesFromTemplates tz templates rows) m dt p ≤ 1) ∧
    (∀ t ∈ templates, ∀ o, (o = 0 ∨ o = 1) → adhanOk tz t o = true →
      occCount (ensureDailySchedulesFromTemplates tz templates rows)
        t.masjidId (expDate tz t o) t.prayerName = 1) := by
  refine ⟨?_, ensureAll_atMost tz templates rows hinv, ?_⟩
  · exact ensureAll_of_done tz templates _
      (fun t ht => ensureAll_keyDone_self tz templates rows t ht)
  · intro t ht o ho hok
    have hd := ensureAll_keyDone_self tz templates rows t ht
    have hkd : keyDone tz t o (ensureDailySchedulesFromTemplates tz templates rows) := by
      rcases ho with rfl | rfl
      · exact hd.1
      · exact hd.2
    rcases hkd with h | h
    · have hpos := (hasOccurrence_iff_pos _ _ _ _).mp h
      have hle := ensureAll_atMost tz templates rows hinv
        t.masjidId (expDate tz t o) t.prayerName
      omega
    · rw [hok] at h
      exact absurd h (by simp)

def tzW : TzOracle :=
  { localDate := fun _ o => if o = 0 then "2026-10-12" else "2026-10-13",
    fromISOValid := fun _ _ => true,
    toUtcMs := fun _ _ => 0 }

def tmplW : ScheduleTemplate :=
  { masjidId := "m1", prayerName := "Fajr", adhanTimeLocal := "05:10" }

/-- Witness: one Fajr template on an empty table — a second run changes
nothing and today's key has exactly one row. -/
theorem templateExpander_idempotent_witness :
    ensureDailySchedulesFromTemplates tzW [tmplW]
        (ensureDailySchedulesFromTemplates tzW [tmplW] []) =
      ensureDailySchedulesFromTemplates tzW [tmplW] [] ∧
    occCount (ensureDailySchedulesFromTemplates tzW [tmplW] [])
      "m1" (expDate tzW tmplW 0) "Fajr" = 1 := by
  have h := templateExpander_idempotent tzW [tmplW] []
    (by intro m dt p; simp [occCount])
  exact ⟨h.1, h.2.2 tmplW (by simp) 0 (Or.inl rfl) rfl⟩

end LAB
